import Mathlib

/-!
# Verification of the wf-cichlid dashboard synchronization core

Shallow embedding of `bin/generate_dashboard.py`: the Dash callback
functions that compute the derived views (scatter plot, violin plot,
filtered detail table), the dropdown/threshold state they read, and the
export helpers.  Numeric column values (`read_length`, `mean_quality`)
and brush/threshold bounds are modelled as rationals; `pd.cut` is
modelled with its actual pandas semantics (right-closed bins,
`include_lowest=False`, errors on non-monotonic or duplicate edges).
-/

deriving instance DecidableEq for Except

namespace Dashboard

/-- One row of the per-read-stats table.  Passthrough columns
(`filename`, `runid`, `channel`, `read_number`, `start_time`) are not
filtered on by any callback and are omitted. -/
structure Record where
  read_id : String
  sample_name : String
  read_length : ℚ
  mean_quality : ℚ
  deriving DecidableEq

/-- The axis-range keys that may be present in the scatter plot's
`relayoutData` dict: `xaxis.range[0]`, `xaxis.range[1]`,
`yaxis.range[0]`, `yaxis.range[1]`.  Each key is independently present
or absent, exactly as in the Python dict. -/
structure RelayoutData where
  xr0 : Option ℚ
  xr1 : Option ℚ
  yr0 : Option ℚ
  yr1 : Option ℚ
  deriving DecidableEq

/-- The read-length category labels of
`labels=["short reads", "mid reads", "long reads"]`. -/
inductive LengthCategory where
  | shortReads
  | midReads
  | longReads
  deriving DecidableEq

/-- Labelling of one value by
`pd.cut(v, bins=[0, mid, long, inf], labels=[...])` once the bins have
been validated: pandas uses right-closed intervals (`right=True`), so a
value `v` gets label `i` iff `bins[i] < v ≤ bins[i+1]`; a value at or
below the first edge `0` falls outside every bin and gets no label
(NaN), since `include_lowest` defaults to `False`. -/
def cutOne (mid long : ℚ) (v : ℚ) : Option LengthCategory :=
  if v ≤ 0 then none
  else if v ≤ mid then some LengthCategory.shortReads
  else if v ≤ long then some LengthCategory.midReads
  else some LengthCategory.longReads

/-- Model of `pd.cut(vs, bins=[0, mid, long, inf], labels=[...])` over a
column.  pandas first validates the bin edges: it raises
`bins must increase monotonically` when some adjacent difference is
negative (here `mid < 0` or `long < mid`), and then
`Bin edges must be unique` when two edges coincide (here `mid = 0` or
`long = mid`; the default is `duplicates="raise"`).  Otherwise each
value is labelled element-wise by `cutOne`. -/
def pdCutColumn (mid long : ℚ) (vs : List ℚ) :
    Except String (List (Option LengthCategory)) :=
  if mid < 0 ∨ long < mid then
    Except.error ("bins must increase monotonically")
  else if mid = 0 ∨ long = mid then
    Except.error ("Bin edges must be unique")
  else
    Except.ok (vs.map (cutOne mid long))

/-- Which input property fired the callback
(`callback_context.triggered[0]["prop_id"]`). -/
inductive Trigger where
  | sampleDropdown
  | scatterRelayout
  | scatterSelectedData
  | thresholds
  deriving DecidableEq

/-- Model of `df[df["sample_name"].isin(selected_samples)]`. -/
def filterBySamples (df : List Record) (selected : List String) : List Record :=
  df.filter (fun r => selected.contains r.sample_name)

/-- The `update_graph` callback: recomputes the scatter plot from the
sample selection and the scatter's `relayoutData`.  We model the figure
by the list of records it plots.  The callback filters by the dropdown
selection, then — with no check of which input triggered it — applies
the zoom filter whenever `relayoutData` holds both `xaxis.range[0]` and
`yaxis.range[0]`; in that branch it reads `xaxis.range[1]` and
`yaxis.range[1]` unguarded, so a dict holding a `[0]` key without its
`[1]` key raises a `KeyError`, modelled as `none`. -/
def update_graph (df : List Record) (selected : List String)
    (relayoutData : Option RelayoutData) : Option (List Record) :=
  let filtered := filterBySamples df selected
  match relayoutData with
  | none => some filtered
  | some rd =>
    if rd.xr0.isSome ∧ rd.yr0.isSome then
      match rd.xr0, rd.xr1, rd.yr0, rd.yr1 with
      | some x0, some x1, some y0, some y1 =>
        some (filtered.filter (fun r =>
          decide (x0 ≤ r.read_length ∧ r.read_length ≤ x1 ∧
                  y0 ≤ r.mean_quality ∧ r.mean_quality ≤ y1)))
      | _, _, _, _ => none
    else some filtered

/-- The `update_filtered_table` callback: recomputes the detail data
table.  It filters by the dropdown selection; if the callback was
triggered by `sample-dropdown.value` it discards `relayoutData`
(comment in the source: reset any zoom filtering as the plot zooms
out); otherwise it applies the x-axis bounds when both x keys are
present and, independently, the y-axis bounds when both y keys are
present.  The third input, the scatter's `selectedData`, is read but
unused (the hue-label filter is a TODO in the source). -/
def update_filtered_table (df : List Record) (selected : List String)
    (relayoutData : Option RelayoutData) (_selectedData : Option Unit)
    (triggered : Trigger) : List Record :=
  let filtered := filterBySamples df selected
  let relayoutData :=
    if triggered = Trigger.sampleDropdown then none else relayoutData
  match relayoutData with
  | none => filtered
  | some rd =>
    let fx :=
      match rd.xr0, rd.xr1 with
      | some x0, some x1 =>
        filtered.filter (fun r =>
          decide (x0 ≤ r.read_length ∧ r.read_length ≤ x1))
      | _, _ => filtered
    match rd.yr0, rd.yr1 with
    | some y0, some y1 =>
      fx.filter (fun r =>
        decide (y0 ≤ r.mean_quality ∧ r.mean_quality ≤ y1))
    | _, _ => fx

/-- The faceted violin figure produced by
`update_violin_plot_qscore_read_length`: the filtered rows with their
recomputed `Read Length Category` labels, the count of distinct
category values used for the facet layout, and the resulting plot
height `max(300, 200 * num_categories)`. -/
structure ViolinFigure where
  rows : List (Record × Option LengthCategory)
  numCategories : Nat
  height : Nat
  deriving DecidableEq

/-- The `update_violin_plot_qscore_read_length` callback.  An empty (or
missing) sample selection short-circuits to the blank default figure
`px.violin()`, modelled as `none`.  Otherwise the rows are filtered by
sample, `pd.cut` recomputes the category column from the current
threshold inputs (propagating its exceptions), and the figure is built
with height proportional to the number of distinct categories. -/
def update_violin_plot_qscore_read_length (df : List Record)
    (mid_threshold long_threshold : ℚ) (selected : List String) :
    Except String (Option ViolinFigure) :=
  if selected.isEmpty then Except.ok none
  else
    let filtered := filterBySamples df selected
    match pdCutColumn mid_threshold long_threshold
        (filtered.map (fun r => r.read_length)) with
    | Except.error e => Except.error e
    | Except.ok labels =>
      let numCategories := labels.eraseDups.length
      Except.ok (some
        { rows := filtered.zip labels
          numCategories := numCategories
          height := max 300 (200 * numCategories) })

/-- The record sequence underlying the violin figure (its rows without
the category labels). -/
def violinRecords (df : List Record) (mid_threshold long_threshold : ℚ)
    (selected : List String) : Except String (Option (List Record)) :=
  (update_violin_plot_qscore_read_length df mid_threshold long_threshold
    selected).map (Option.map (fun f => f.rows.map Prod.fst))

/-- Modelled from the spec: Dash's behaviour when a callback raises —
the framework surfaces the exception and leaves the callback's output
at its previous value, so the previously rendered figure stays in
effect (the framework itself is not part of src/).  The pair is (output
now in effect, surfaced error message if any). -/
def applyCallbackResult {α : Type} (prev : α) (res : Except String α) :
    α × Option String :=
  match res with
  | Except.ok a => (a, none)
  | Except.error e => (prev, some e)

/-- Which button fired the `update_dropdown` callback. -/
inductive DropdownTrigger where
  | selectAll
  | deselectAll
  | noTrigger
  deriving DecidableEq

/-- The `update_dropdown` callback: Select All returns every option
value, Deselect All returns the empty list, and with no trigger it
returns `no_update` (modelled as `none`). -/
def update_dropdown (options : List String) :
    DropdownTrigger → Option (List String)
  | DropdownTrigger.selectAll => some options
  | DropdownTrigger.deselectAll => some []
  | DropdownTrigger.noTrigger => none

/-- The mutable component properties of the running dashboard that the
callbacks read: the dropdown's `value`, the scatter's `relayoutData`,
and the two threshold inputs' `value`s. -/
structure DashComponents where
  sampleSelection : List String
  relayoutData : Option RelayoutData
  midThreshold : ℚ
  longThreshold : ℚ
  deriving DecidableEq

/-- The externally triggerable events: a dropdown edit, a zoom/brush on
the scatter (which sets its `relayoutData`), a Select All / Deselect
All click (routed through `update_dropdown`), and a threshold edit. -/
inductive UIEvent where
  | setSampleSelection (newSet : List String)
  | relayoutEvent (rd : RelayoutData)
  | selectAllClick
  | deselectAllClick
  | thresholdChange (mid long : ℚ)
  deriving DecidableEq

/-- How an event updates the stored component properties.  Only the
event's own property changes: in particular no event writes the
scatter's `relayoutData` except an actual relayout — replacing the
scatter figure does not clear the stored `relayoutData`.  `options` is
the dropdown's option list (the dataset's distinct sample names). -/
def applyEvent (options : List String) (s : DashComponents) :
    UIEvent → DashComponents
  | UIEvent.setSampleSelection ns => { s with sampleSelection := ns }
  | UIEvent.relayoutEvent rd => { s with relayoutData := some rd }
  | UIEvent.selectAllClick =>
    { s with sampleSelection := (update_dropdown options DropdownTrigger.selectAll).getD s.sampleSelection }
  | UIEvent.deselectAllClick =>
    { s with sampleSelection := (update_dropdown options DropdownTrigger.deselectAll).getD s.sampleSelection }
  | UIEvent.thresholdChange m l =>
    { s with midThreshold := m, longThreshold := l }

/-- The artifact-name stem of `export_results`:
`"_".join(selected_samples) if selected_samples else "all_samples"`.
The join is over the dropdown's value list in its stored order; the
source does not sort it. -/
def selectedSamplesStr (selected : List String) : String :=
  if selected.isEmpty then ("all_samples") else String.intercalate ("_") selected

/-- The three artifact file names written by `export_results`. -/
def exportPlotNames (selected : List String) : List String :=
  [selectedSamplesStr selected ++ "--qscore_read_length_scatter_plot.png",
   selectedSamplesStr selected ++ "--qscore_read_length_violin_plot.png",
   selectedSamplesStr selected ++ "--read_length_violin_plot.png"]

/-- Lexicographic comparison of character lists by code point. -/
def charListLe : List Char → List Char → Bool
  | [], _ => true
  | _ :: _, [] => false
  | c :: cs, d :: ds =>
    if c.val < d.val then true
    else if d.val < c.val then false
    else charListLe cs ds

/-- Lexicographic comparison of strings by code point. -/
def strLe (a b : String) : Bool := charListLe a.data b.data

/-- Insert a string into a (sorted) list, keeping it sorted. -/
def insertSorted (x : String) : List String → List String
  | [] => [x]
  | y :: ys => if strLe x y then x :: y :: ys else y :: insertSorted x ys

/-- Insertion sort on strings. -/
def sortStrings (l : List String) : List String := l.foldr insertSorted []

/-- Follows the spec's words, for comparison with `selectedSamplesStr`:
naming each artifact deterministically from the sorted,
underscore-joined sample names, with fallback `all_samples` when the
selection is empty. -/
def specSortedSamplesStr (selected : List String) : String :=
  if selected.isEmpty then ("all_samples")
  else String.intercalate ("_") (sortStrings selected)

/-- Outcome of one `export_results` invocation: the user-visible
dialog message, if any, and the artifact names it goes on to write. -/
structure PlotExportResult where
  warning : Option String
  written : List String
  deriving DecidableEq

/-- The `export_results` callback, by its observable outcome.  With a
truthy click count and no save path (`if not save_path`, so a missing
or empty path; modelled as `none`) it returns a displayed
`ConfirmDialog` carrying a warning message and writes nothing;
otherwise it derives the three artifact names from the current
selection and writes them under the save path (write failures are
caught and printed to the console). -/
def export_results (n_clicks : Nat) (selected : List String)
    (save_path : Option String) : PlotExportResult :=
  if n_clicks = 0 then ⟨none, []⟩
  else
    match save_path with
    | none => ⟨some ("No save path provided, skipping export."), []⟩
    | some _ => ⟨none, exportPlotNames selected⟩

/-- Outcome of one `export_read_ids` invocation: the user-visible
warning, if any, and the identifier lines written, if any. -/
structure ReadIdExportResult where
  warning : Option String
  written : Option (List String)
  deriving DecidableEq

/-- The `export_read_ids` callback, by its observable outcome.  It
acts only when `n_clicks > 0 and save_path`; in that case it writes the
`read_id` of every row of the overview table's derived data (an empty
or missing row set yields an empty list).  When the guard fails —
including a missing save path — it silently does nothing: no dialog,
no message, no write. -/
def export_read_ids (n_clicks : Nat) (rows : Option (List Record))
    (save_path : Option String) : ReadIdExportResult :=
  if 0 < n_clicks ∧ save_path.isSome then
    ⟨none, some ((rows.getD []).map (fun r => r.read_id))⟩
  else ⟨none, none⟩

/-! Concrete data used by witnesses and counterexamples. -/

/-- A short read of sample A. -/
def rA : Record := ⟨"r1", "A", 100, 10⟩

/-- A long read of sample A. -/
def rB : Record := ⟨"r2", "A", 9000, 10⟩

/-- A two-record dataset, both records of sample A. -/
def dfEx : List Record := [rA, rB]

/-- A stored full brush: x ∈ [0, 500], y ∈ [0, 20]. -/
def rdEx : RelayoutData := ⟨some 0, some 500, some 0, some 20⟩

/-- Component state: sample A selected, brush `rdEx` stored, default
thresholds 5000 / 10000. -/
def sEx : DashComponents := ⟨["A"], some rdEx, 5000, 10000⟩

/-- C2: the claim asserts the half-open-right rule (a length equal to a
threshold falls into the higher bucket, a zero length is short).  The
code's `pd.cut` defaults are right-closed: with thresholds 5000/10000 a
length of exactly 5000 is labelled short (not mid), 10000 is labelled
mid (not long), and 0 receives no label at all. -/
theorem C2_boundary_goes_to_lower_bucket :
    pdCutColumn 5000 10000 [5000, 10000, 0]
      = Except.ok [some LengthCategory.shortReads,
                   some LengthCategory.midReads, none] ∧
    some LengthCategory.shortReads ≠ some LengthCategory.midReads ∧
    some LengthCategory.midReads ≠ some LengthCategory.longReads ∧
    (none : Option LengthCategory) ≠ some LengthCategory.shortReads := by
  decide

/-- C2 (amended): for thresholds `0 < mid < long`, bucketizing succeeds
and labels each value by the right-closed rule of `pd.cut`: a value at
or below 0 gets no label, `0 < v ≤ mid` is short, `mid < v ≤ long` is
mid, and `long < v` is long; a value exactly equal to `mid` or `long`
falls into the lower bucket. -/
theorem C2_bucketize_right_closed (m l v : ℚ) (hm : 0 < m) (hml : m < l)
    (vs : List ℚ) :
    pdCutColumn m l vs = Except.ok (vs.map (cutOne m l)) ∧
    (v ≤ 0 → cutOne m l v = none) ∧
    (0 < v → v ≤ m → cutOne m l v = some LengthCategory.shortReads) ∧
    (m < v → v ≤ l → cutOne m l v = some LengthCategory.midReads) ∧
    (l < v → cutOne m l v = some LengthCategory.longReads) := by
  have h1 : ¬ (m < 0 ∨ l < m) := by push_neg; exact ⟨le_of_lt hm, le_of_lt hml⟩
  have h2 : ¬ (m = 0 ∨ l = m) := by push_neg; exact ⟨ne_of_gt hm, ne_of_gt hml⟩
  refine ⟨?_, ?_, ?_, ?_, ?_⟩
  · unfold pdCutColumn
    rw [if_neg h1, if_neg h2]
  · intro h0
    unfold cutOne
    rw [if_pos h0]
  · intro h0 hvm
    unfold cutOne
    rw [if_neg (not_le.mpr h0), if_pos hvm]
  · intro hmv hvl
    unfold cutOne
    rw [if_neg (not_le.mpr (lt_trans hm hmv)), if_neg (not_le.mpr hmv),
        if_pos hvl]
  · intro hlv
    unfold cutOne
    rw [if_neg (not_le.mpr (lt_trans hm (lt_trans hml hlv))),
        if_neg (not_le.mpr (lt_trans hml hlv)), if_neg (not_le.mpr hlv)]

/-- Witness for C2 (amended) at thresholds 5000/10000 and value 5000. -/
theorem C2_bucketize_right_closed_witness :
    (0 : ℚ) < 5000 ∧ (5000 : ℚ) < 10000 ∧
    (pdCutColumn 5000 10000 [5000, 0, 7000, 20000]
       = Except.ok ([5000, 0, 7000, 20000].map (cutOne 5000 10000)) ∧
     ((5000 : ℚ) ≤ 0 → cutOne 5000 10000 5000 = none) ∧
     ((0 : ℚ) < 5000 → (5000 : ℚ) ≤ 5000 →
       cutOne 5000 10000 5000 = some LengthCategory.shortReads) ∧
     ((5000 : ℚ) < 5000 → (5000 : ℚ) ≤ 10000 →
       cutOne 5000 10000 5000 = some LengthCategory.midReads) ∧
     ((10000 : ℚ) < 5000 →
       cutOne 5000 10000 5000 = some LengthCategory.longReads)) :=
  ⟨by norm_num, by norm_num,
   C2_bucketize_right_closed 5000 10000 5000 (by norm_num) (by norm_num)
     [5000, 0, 7000, 20000]⟩

/-- C3: the claim says every `SetThresholds` with `mid >= long` is
rejected with a surfaced validation message.  With an empty sample
selection the violin callback short-circuits to the blank figure
before `pd.cut` ever validates the bins: the invalid thresholds are
accepted silently and no message is surfaced. -/
theorem C3_empty_selection_accepts_invalid :
    update_violin_plot_qscore_read_length dfEx 10000 5000 []
      = Except.ok none ∧
    (applyCallbackResult (none : Option ViolinFigure)
      (update_violin_plot_qscore_read_length dfEx 10000 5000 [])).2
      = none := by
  decide

/-- C3 (amended): a `SetThresholds` with `mid >= long`, recomputed
under a non-empty sample selection, never yields a violin figure:
`pd.cut`'s bin validation raises, the surfaced result is an error
message, and under Dash's callback-error handling the previously
rendered figure (hence the prior thresholds' labelling) stays in
effect; no clamped or empty-middle-bucket view is produced. -/
theorem C3_invalid_thresholds_rejected (df : List Record) (m l : ℚ)
    (sel : List String) (prev : Option ViolinFigure)
    (hsel : sel.isEmpty = false) (h : l ≤ m) :
    (update_violin_plot_qscore_read_length df m l sel).toOption = none ∧
    (applyCallbackResult prev
      (update_violin_plot_qscore_read_length df m l sel)).1 = prev ∧
    (applyCallbackResult prev
      (update_violin_plot_qscore_read_length df m l sel)).2.isSome = true := by
  have herr : ∃ e, pdCutColumn m l
      ((filterBySamples df sel).map (fun r => r.read_length))
        = Except.error e := by
    unfold pdCutColumn
    rcases lt_or_eq_of_le h with hlt | heq
    · rw [if_pos (Or.inr hlt)]
      exact ⟨_, rfl⟩
    · by_cases hneg : m < 0 ∨ l < m
      · rw [if_pos hneg]
        exact ⟨_, rfl⟩
      · rw [if_neg hneg, if_pos (Or.inr heq)]
        exact ⟨_, rfl⟩
  obtain ⟨e, he⟩ := herr
  unfold update_violin_plot_qscore_read_length
  rw [hsel]
  simp only [Bool.false_eq_true, if_false, he]
  exact ⟨rfl, rfl, rfl⟩

/-- Witness for C3 with thresholds mid = 10000, long = 5000. -/
theorem C3_invalid_thresholds_rejected_witness :
    (["A"] : List String).isEmpty = false ∧ (5000 : ℚ) ≤ 10000 ∧
    ((update_violin_plot_qscore_read_length dfEx 10000 5000 ["A"]).toOption
        = none ∧
     (applyCallbackResult (none : Option ViolinFigure)
       (update_violin_plot_qscore_read_length dfEx 10000 5000 ["A"])).1
        = none ∧
     (applyCallbackResult (none : Option ViolinFigure)
       (update_violin_plot_qscore_read_length dfEx 10000 5000 ["A"])).2.isSome
        = true) :=
  ⟨by decide, by norm_num,
   C3_invalid_thresholds_rejected dfEx 10000 5000 ["A"] none (by decide)
     (by norm_num)⟩

/-- C5: the brushed detail-table view is always a sublist of the
sample-filtered (unbrushed) view; with no stored `relayoutData` the two
coincide; and when a full brush range is stored (and the recompute was
not triggered by the dropdown) the table is exactly the candidate set
further filtered by the four inclusive bounds on
`(read_length, mean_quality)`. -/
theorem C5_brushed_subset_unbrushed (df : List Record) (sel : List String)
    (rl : Option RelayoutData) (sd : Option Unit) (trig : Trigger)
    (x0 x1 y0 y1 : ℚ) :
    (∀ r, r ∈ update_filtered_table df sel rl sd trig →
       r ∈ filterBySamples df sel) ∧
    update_filtered_table df sel none sd trig = filterBySamples df sel ∧
    (rl = some ⟨some x0, some x1, some y0, some y1⟩ →
     trig ≠ Trigger.sampleDropdown →
     update_filtered_table df sel rl sd trig
       = ((filterBySamples df sel).filter (fun r =>
             decide (x0 ≤ r.read_length ∧ r.read_length ≤ x1))).filter
           (fun r =>
             decide (y0 ≤ r.mean_quality ∧ r.mean_quality ≤ y1))) := by
  refine ⟨?_, ?_, ?_⟩
  · intro r hr
    unfold update_filtered_table at hr
    by_cases ht : trig = Trigger.sampleDropdown
    · rw [if_pos ht] at hr
      exact hr
    · rw [if_neg ht] at hr
      cases rl with
      | none => exact hr
      | some rd =>
        rcases rd with ⟨xr0, xr1, yr0, yr1⟩
        cases xr0 <;> cases xr1 <;> cases yr0 <;> cases yr1 <;>
          first
            | exact hr
            | exact List.filter_subset' _ hr
            | exact List.filter_subset' _ (List.filter_subset' _ hr)
  · unfold update_filtered_table
    rw [ite_self]
  · intro hrl ht
    subst hrl
    unfold update_filtered_table
    rw [if_neg ht]

/-- C7: a Deselect All click empties the dropdown selection without
error, and the subsequent recompute yields an empty detail table
(brushed view) and the blank default violin figure (unbrushed view). -/
theorem C7_deselect_all_empty_views (df : List Record)
    (options : List String) (s : DashComponents) (sd : Option Unit) :
    (applyEvent options s UIEvent.deselectAllClick).sampleSelection = [] ∧
    update_filtered_table df
      (applyEvent options s UIEvent.deselectAllClick).sampleSelection
      s.relayoutData sd Trigger.sampleDropdown = [] ∧
    update_violin_plot_qscore_read_length df s.midThreshold s.longThreshold
      (applyEvent options s UIEvent.deselectAllClick).sampleSelection
      = Except.ok none := by
  refine ⟨rfl, ?_, rfl⟩
  show update_filtered_table df [] s.relayoutData sd Trigger.sampleDropdown = []
  unfold update_filtered_table
  rw [if_pos rfl]
  simp [filterBySamples]

/-- C10: when the stored brush carries bounds for only one axis, the
detail table applies that single-axis filter while the scatter applies
no brush filter at all (it requires both `xaxis.range[0]` and
`yaxis.range[0]` before filtering); on the concrete example dataset the
two views genuinely differ. -/
theorem C10_single_axis_consumers_disagree (df : List Record)
    (sel : List String) (sd : Option Unit) (x0 x1 y0 y1 : ℚ) :
    update_filtered_table df sel (some ⟨some x0, some x1, none, none⟩) sd
        Trigger.scatterRelayout
      = (filterBySamples df sel).filter (fun r =>
          decide (x0 ≤ r.read_length ∧ r.read_length ≤ x1)) ∧
    update_graph df sel (some ⟨some x0, some x1, none, none⟩)
      = some (filterBySamples df sel) ∧
    update_filtered_table df sel (some ⟨none, none, some y0, some y1⟩) sd
        Trigger.scatterRelayout
      = (filterBySamples df sel).filter (fun r =>
          decide (y0 ≤ r.mean_quality ∧ r.mean_quality ≤ y1)) ∧
    update_graph df sel (some ⟨none, none, some y0, some y1⟩)
      = some (filterBySamples df sel) ∧
    update_filtered_table dfEx ["A"] (some ⟨some 0, some 500, none, none⟩)
        none Trigger.scatterRelayout = [rA] ∧
    update_graph dfEx ["A"] (some ⟨some 0, some 500, none, none⟩)
      = some [rA, rB] ∧
    [rA] ≠ [rA, rB] := by
  refine ⟨rfl, rfl, rfl, rfl, by decide, by decide, by decide⟩

/-- Witness for C5 with the example dataset and the stored full brush
`rdEx`. -/
theorem C5_brushed_subset_unbrushed_witness :
    (some rdEx = some (⟨some 0, some 500, some 0, some 20⟩ : RelayoutData)) ∧
    (Trigger.scatterRelayout ≠ Trigger.sampleDropdown) ∧
    (rA ∈ update_filtered_table dfEx ["A"] (some rdEx) none
        Trigger.scatterRelayout →
      rA ∈ filterBySamples dfEx ["A"]) ∧
    update_filtered_table dfEx ["A"] (some rdEx) none Trigger.scatterRelayout
      = ((filterBySamples dfEx ["A"]).filter (fun r =>
            decide ((0 : ℚ) ≤ r.read_length ∧ r.read_length ≤ 500))).filter
          (fun r =>
            decide ((0 : ℚ) ≤ r.mean_quality ∧ r.mean_quality ≤ 20)) :=
  ⟨rfl, by decide,
   (C5_brushed_subset_unbrushed dfEx ["A"] (some rdEx) none
      Trigger.scatterRelayout 0 500 0 20).1 rA,
   (C5_brushed_subset_unbrushed dfEx ["A"] (some rdEx) none
      Trigger.scatterRelayout 0 500 0 20).2.2 rfl (by decide)⟩

/-- C1: evaluation at the failing input.  Re-issuing the very same
sample selection leaves the stored `relayoutData` untouched; the
scatter recompute (`update_graph`, which never consults the trigger)
still applies the stale brush and shows only `rA`, while the
sample-filtered candidate set is `[rA, rB]`; the detail table, by
contrast, does reset the zoom on a dropdown trigger. -/
theorem C1_stale_brush_in_scatter_after_reselect :
    (applyEvent ["A"] sEx (UIEvent.setSampleSelection ["A"])).relayoutData
      = some rdEx ∧
    update_graph dfEx
      (applyEvent ["A"] sEx (UIEvent.setSampleSelection ["A"])).sampleSelection
      (applyEvent ["A"] sEx (UIEvent.setSampleSelection ["A"])).relayoutData
      = some [rA] ∧
    filterBySamples dfEx
      (applyEvent ["A"] sEx (UIEvent.setSampleSelection ["A"])).sampleSelection
      = [rA, rB] ∧
    update_filtered_table dfEx
      (applyEvent ["A"] sEx (UIEvent.setSampleSelection ["A"])).sampleSelection
      (applyEvent ["A"] sEx (UIEvent.setSampleSelection ["A"])).relayoutData
      none Trigger.sampleDropdown
      = [rA, rB] ∧
    some [rA] ≠ some [rA, rB] := by
  decide

/-- C4: the claim says a brush with inverted bounds is treated as
cleared (brushed view = unbrushed view).  In the code the inclusive
bounds are applied literally, so an inverted x-range (xMin 10 > xMax 5)
empties both brushed consumers while the unbrushed view is `[rA, rB]`. -/
theorem C4_counterexample :
    update_filtered_table dfEx ["A"]
        (some ⟨some 10, some 5, some 0, some 20⟩) none
        Trigger.scatterRelayout = [] ∧
    update_graph dfEx ["A"] (some ⟨some 10, some 5, some 0, some 20⟩)
      = some [] ∧
    filterBySamples dfEx ["A"] = [rA, rB] ∧
    ([] : List Record) ≠ [rA, rB] := by
  decide

/-- C4 (amended): a brush range with inverted x-bounds is applied
literally by both brushed consumers — each filters by the inclusive
bounds, which nothing satisfies — so the brushed views are empty rather
than equal to the unbrushed view; neither consumer raises an error. -/
theorem C4_inverted_brush_yields_empty (df : List Record)
    (sel : List String) (sd : Option Unit) (x0 x1 y0 y1 : ℚ)
    (hx : x1 < x0) :
    update_filtered_table df sel
        (some ⟨some x0, some x1, some y0, some y1⟩) sd
        Trigger.scatterRelayout = [] ∧
    update_graph df sel (some ⟨some x0, some x1, some y0, some y1⟩)
      = some [] := by
  have hpx : ∀ q : ℚ, ¬ (x0 ≤ q ∧ q ≤ x1) := by
    rintro q ⟨ha, hb⟩
    exact absurd (le_trans ha hb) (not_le.mpr hx)
  constructor
  · have hdef : update_filtered_table df sel
        (some ⟨some x0, some x1, some y0, some y1⟩) sd
        Trigger.scatterRelayout
      = ((filterBySamples df sel).filter (fun r =>
            decide (x0 ≤ r.read_length ∧ r.read_length ≤ x1))).filter
          (fun r =>
            decide (y0 ≤ r.mean_quality ∧ r.mean_quality ≤ y1)) := rfl
    have hinner : (filterBySamples df sel).filter (fun r =>
        decide (x0 ≤ r.read_length ∧ r.read_length ≤ x1)) = [] := by
      rw [List.filter_eq_nil_iff]
      intro r _
      simp only [decide_eq_true_eq]
      exact hpx r.read_length
    rw [hdef, hinner]
    rfl
  · have hdef : update_graph df sel
        (some ⟨some x0, some x1, some y0, some y1⟩)
      = some ((filterBySamples df sel).filter (fun r =>
          decide (x0 ≤ r.read_length ∧ r.read_length ≤ x1 ∧
                  y0 ≤ r.mean_quality ∧ r.mean_quality ≤ y1))) := rfl
    rw [hdef]
    congr 1
    rw [List.filter_eq_nil_iff]
    intro r _
    simp only [decide_eq_true_eq]
    rintro ⟨ha, hb, _⟩
    exact hpx r.read_length ⟨ha, hb⟩

/-- Witness for C4 (amended) at the inverted x-range (10, 5). -/
theorem C4_inverted_brush_yields_empty_witness :
    (5 : ℚ) < 10 ∧
    (update_filtered_table dfEx ["A"]
        (some ⟨some 10, some 5, some 0, some 20⟩) none
        Trigger.scatterRelayout = [] ∧
     update_graph dfEx ["A"] (some ⟨some 10, some 5, some 0, some 20⟩)
       = some []) :=
  ⟨by norm_num,
   C4_inverted_brush_yields_empty dfEx ["A"] none 10 5 0 20 (by norm_num)⟩

/-- C6: the claim says artifact names come from the sorted,
underscore-joined sample names.  The code joins the dropdown's value
list as-is: for the selection `["b", "a"]` it produces `b_a`, not the
sorted `a_b`. -/
theorem C6_join_not_sorted :
    selectedSamplesStr ["b", "a"] = "b_a" ∧
    specSortedSamplesStr ["b", "a"] = "a_b" ∧
    ("b_a" : String) ≠ "a_b" := by
  decide

/-- C6 (amended): for a non-empty selection the three artifact names
are derived deterministically from the underscore-join of the selected
sample names in their selection (dropdown) order — not sorted; the
empty selection falls back to the stem `all_samples` (the export is not
short-circuited). -/
theorem C6_export_names_selection_order (sel : List String)
    (h : sel.isEmpty = false) :
    selectedSamplesStr sel = String.intercalate ("_") sel ∧
    selectedSamplesStr [] = "all_samples" ∧
    exportPlotNames sel
      = [String.intercalate ("_") sel
           ++ "--qscore_read_length_scatter_plot.png",
         String.intercalate ("_") sel
           ++ "--qscore_read_length_violin_plot.png",
         String.intercalate ("_") sel
           ++ "--read_length_violin_plot.png"] := by
  have h1 : selectedSamplesStr sel = String.intercalate ("_") sel := by
    unfold selectedSamplesStr
    rw [h]
    simp only [Bool.false_eq_true, if_false]
  refine ⟨h1, rfl, ?_⟩
  unfold exportPlotNames
  rw [h1]

/-- Witness for C6 (amended) at the selection `["b", "a"]`. -/
theorem C6_export_names_selection_order_witness :
    (["b", "a"] : List String).isEmpty = false ∧
    (selectedSamplesStr ["b", "a"] = String.intercalate ("_") ["b", "a"] ∧
     selectedSamplesStr [] = "all_samples" ∧
     exportPlotNames ["b", "a"]
       = [String.intercalate ("_") ["b", "a"]
            ++ "--qscore_read_length_scatter_plot.png",
          String.intercalate ("_") ["b", "a"]
            ++ "--qscore_read_length_violin_plot.png",
          String.intercalate ("_") ["b", "a"]
            ++ "--read_length_violin_plot.png"]) :=
  ⟨by decide, C6_export_names_selection_order ["b", "a"] (by decide)⟩

/-- C8: the claim says every export invoked with a missing destination
surfaces a user-visible warning.  The read-ID export with a missing
save path silently does nothing — no warning — while the plot export
does display a dialog. -/
theorem C8_read_id_export_silently_skips :
    export_read_ids 1 (some [rA, rB]) none = ⟨none, none⟩ ∧
    (export_read_ids 1 (some [rA, rB]) none).warning = none ∧
    (export_results 1 ["A"] none).warning
      = some ("No save path provided, skipping export.") := by
  decide

/-- C8 (amended): with a truthy click count and a missing destination
path, the plot export aborts with a user-visible dialog message and
writes nothing, while the read-ID export aborts silently — no warning,
no write; neither mutates any filter component, and neither crashes. -/
theorem C8_missing_path_aborts (n : Nat) (sel : List String)
    (rows : Option (List Record)) (hn : 0 < n) :
    (export_results n sel none).warning
      = some ("No save path provided, skipping export.") ∧
    (export_results n sel none).written = [] ∧
    export_read_ids n rows none = ⟨none, none⟩ := by
  have hn0 : ¬ n = 0 := Nat.pos_iff_ne_zero.mp hn
  refine ⟨?_, ?_, ?_⟩
  · unfold export_results
    rw [if_neg hn0]
  · unfold export_results
    rw [if_neg hn0]
  · unfold export_read_ids
    rw [if_neg]
    rintro ⟨_, hs⟩
    simp at hs

/-- Witness for C8 (amended) at one click with no destination path. -/
theorem C8_missing_path_aborts_witness :
    0 < 1 ∧
    ((export_results 1 ["A"] none).warning
       = some ("No save path provided, skipping export.") ∧
     (export_results 1 ["A"] none).written = [] ∧
     export_read_ids 1 none none = ⟨none, none⟩) :=
  ⟨by decide, C8_missing_path_aborts 1 ["A"] none (by decide)⟩

/-- C9: the claim calls a `SetThresholds` valid whenever `mid < long`,
and asserts its only effect on views is bucket relabelling.  But
`pd.cut` prepends the fixed bin edge 0, so the spec-valid edit
mid = 0, long = 10000 raises instead of relabelling: the recompute
yields no figure, an error message is surfaced, and the previously
rendered figure stays frozen with its old labels. -/
theorem C9_nonpositive_mid_errors_not_relabels :
    (0 : ℚ) < 10000 ∧
    update_violin_plot_qscore_read_length dfEx 0 10000 ["A"]
      = Except.error ("Bin edges must be unique") ∧
    (update_violin_plot_qscore_read_length dfEx 0 10000 ["A"]).toOption
      = none ∧
    violinRecords dfEx 0 10000 ["A"]
      = Except.error ("Bin edges must be unique") ∧
    (applyCallbackResult (none : Option ViolinFigure)
      (update_violin_plot_qscore_read_length dfEx 0 10000 ["A"])).1
      = none ∧
    (applyCallbackResult (none : Option ViolinFigure)
      (update_violin_plot_qscore_read_length dfEx 0 10000 ["A"])).2
      = some ("Bin edges must be unique") := by
  decide

/-- C9 (amended): a threshold edit that `pd.cut` accepts
(0 < mid < long) changes only the two threshold values — the dropdown
selection and the stored brush are untouched — and the violin view it
retriggers keeps exactly the same record sequence (the sample-filtered
candidate set), so its only effect on the view is the relabelling of
the bucket categories.  (Selection and brush are untouched by every
threshold edit, valid or not, since the violin figure is the
callback's sole output.) -/
theorem C9_set_thresholds_frame (options : List String)
    (s : DashComponents) (df : List Record) (m l : ℚ)
    (hm : 0 < m) (hml : m < l) :
    (applyEvent options s (UIEvent.thresholdChange m l)).sampleSelection
      = s.sampleSelection ∧
    (applyEvent options s (UIEvent.thresholdChange m l)).relayoutData
      = s.relayoutData ∧
    (applyEvent options s (UIEvent.thresholdChange m l)).midThreshold = m ∧
    (applyEvent options s (UIEvent.thresholdChange m l)).longThreshold = l ∧
    violinRecords df m l s.sampleSelection
      = Except.ok (if s.sampleSelection.isEmpty then none
          else some (filterBySamples df s.sampleSelection)) := by
  refine ⟨rfl, rfl, rfl, rfl, ?_⟩
  have h1 : ¬ (m < 0 ∨ l < m) := by
    push_neg
    exact ⟨le_of_lt hm, le_of_lt hml⟩
  have h2 : ¬ (m = 0 ∨ l = m) := by
    push_neg
    exact ⟨ne_of_gt hm, ne_of_gt hml⟩
  have hok : pdCutColumn m l
      ((filterBySamples df s.sampleSelection).map (fun r => r.read_length))
    = Except.ok
        (((filterBySamples df s.sampleSelection).map
            (fun r => r.read_length)).map (cutOne m l)) := by
    unfold pdCutColumn
    rw [if_neg h1, if_neg h2]
  cases hsel : s.sampleSelection.isEmpty with
  | true =>
    unfold violinRecords update_violin_plot_qscore_read_length
    rw [hsel]
    rfl
  | false =>
    unfold violinRecords update_violin_plot_qscore_read_length
    rw [hsel]
    simp only [Bool.false_eq_true, if_false, hok]
    simp only [Except.map, Option.map]
    rw [List.map_fst_zip]
    simp [List.length_map]

/-- Witness for C9 at thresholds (300, 600) on the example state. -/
theorem C9_set_thresholds_frame_witness :
    (0 : ℚ) < 300 ∧ (300 : ℚ) < 600 ∧
    ((applyEvent ["A"] sEx (UIEvent.thresholdChange 300 600)).sampleSelection
       = sEx.sampleSelection ∧
     (applyEvent ["A"] sEx (UIEvent.thresholdChange 300 600)).relayoutData
       = sEx.relayoutData ∧
     (applyEvent ["A"] sEx (UIEvent.thresholdChange 300 600)).midThreshold
       = 300 ∧
     (applyEvent ["A"] sEx (UIEvent.thresholdChange 300 600)).longThreshold
       = 600 ∧
     violinRecords dfEx 300 600 sEx.sampleSelection
       = Except.ok (if sEx.sampleSelection.isEmpty then none
           else some (filterBySamples dfEx sEx.sampleSelection))) :=
  ⟨by norm_num, by norm_num,
   C9_set_thresholds_frame ["A"] sEx dfEx 300 600 (by norm_num)
     (by norm_num)⟩

end Dashboard
